import Mathlib

/-!
Verification of the express-mysql-api-server administrative API.

The development shallowly embeds the data model (prisma schema), the admin
service (src/dist: AdminService), the permission/role controller
(src/src/controllers/admin.controller.ts) and the error middleware
(src/dist/middlewares/error.middleware.js).  The relational store is a
record of lists of rows; every operation is a pure function from the store
(and its inputs) to a result together with the successor store.
-/

/-- An Admin row (prisma model Admin).  `type` of the subject is implicit
(admins live in their own table). -/
structure Admin where
  id : String
  email : String
  name : String
  password : String
  status : Int
  isSystem : Int
deriving DecidableEq, Repr

/-- A Role row (prisma model Role).  `type` is the UserType enum, stored
here as its string value ("admin" or "user"). -/
structure Role where
  id : String
  name : String
  type : String
  status : Int
  isSystem : Int
deriving DecidableEq, Repr

/-- A Permission row (prisma model Permission). -/
structure Permission where
  id : String
  name : String
  type : String
  parentId : Option String
deriving DecidableEq, Repr

/-- A ModelHasRole row (prisma model ModelHasRole): binds a subject
(`modelId` of kind `modelType`) to a role. -/
structure ModelHasRole where
  id : String
  roleId : String
  modelId : String
  modelType : String
deriving DecidableEq, Repr

/-- A RoleHasPermission row (prisma model RoleHasPermission): composite
key (roleId, permissionId). -/
structure RoleHasPermission where
  roleId : String
  permissionId : String
deriving DecidableEq, Repr

/-- The relational store: one list of rows per prisma model. -/
structure DB where
  admins : List Admin := []
  roles : List Role := []
  permissions : List Permission := []
  modelHasRoles : List ModelHasRole := []
  roleHasPermissions : List RoleHasPermission := []
deriving DecidableEq, Repr

/-- A JavaScript error value as the error middleware sees it: `status` and
`message` are whatever fields the thrown object happens to carry.
`HttpException` instances carry both; a plain `Error` carries only a
message; prisma client errors carry a `code` but no `status`. -/
structure AppError where
  status : Option Nat := none
  message : Option String := none
deriving DecidableEq, Repr

/-- The value `new HttpException(status, message)` builds (src/exceptions/HttpException). -/
def HttpException (status : Nat) (message : String) : AppError :=
  { status := some status, message := some message }

/-- The value `new Error(message)` builds: no `status` field. -/
def jsError (message : String) : AppError :=
  { status := none, message := some message }

/-- The JSON body `{ message, status }` produced by the error middleware. -/
structure ErrorBody where
  message : String
  status : Nat
deriving DecidableEq, Repr

/-- JavaScript `x || d` on an optional number: `undefined` and `0` are
falsy. -/
def jsOrNat : Option Nat → Nat → Nat
  | none, d => d
  | some v, d => if v = 0 then d else v

/-- JavaScript `x || d` on an optional string: `undefined` and `""` are
falsy. -/
def jsOrStr : Option String → String → String
  | none, d => d
  | some v, d => if v = "" then d else v

/-- JavaScript `String.prototype.toUpperCase()`, modelled character by
character. -/
def jsToUpperCase (s : String) : String :=
  ⟨s.data.map Char.toUpper⟩

/-- JavaScript `String.prototype.toLowerCase()`, modelled character by
character. -/
def jsToLowerCase (s : String) : String :=
  ⟨s.data.map Char.toLower⟩

deriving instance DecidableEq for Except

/-- src/dist/middlewares/error.middleware.js: `status = error.status || 500`,
`message = error.message || "Something went wrong"` (single-quoted in the source),
`res.status(status).json({ message, status })`.  Returns the HTTP status
used for the response together with the JSON body. -/
def ErrorMiddleware (error : AppError) : Nat × ErrorBody :=
  let status := jsOrNat error.status 500
  let message := jsOrStr error.message "Something went wrong"
  (status, { message := message, status := status })

/-- Model of `bcrypt.hash(p, 10)`: an injective one-way encoding.  The
constant prefix stands for the bcrypt version/cost/salt header ("$2b$10$"),
which guarantees a hash is never equal to the plaintext it encodes. -/
def bhash (p : String) : String :=
  "$2b$10$" ++ p

/-- Model of `bcrypt.compare(p, h)`: true exactly when `h` is the hash of
`p`. -/
def bcompare (p h : String) : Bool :=
  bhash p == h

theorem bhash_inj {a b : String} (h : bhash a = bhash b) : a = b := by
  have hdata : ("$2b$10$" ++ a).data = ("$2b$10$" ++ b).data := congrArg String.data h
  simp only [String.data_append] at hdata
  have := List.append_cancel_left hdata
  exact String.ext this

theorem bcompare_bhash (p q : String) : bcompare p (bhash q) = (p == q) := by
  by_cases hpq : p = q
  · subst hpq; simp [bcompare]
  · simp only [bcompare, beq_iff_eq, beq_eq_false_iff_ne, ne_eq]
    have h1 : ¬ bhash p = bhash q := fun hc => hpq (bhash_inj hc)
    simp [h1, hpq]

theorem bhash_length (p : String) : (bhash p).length = 7 + p.length := by
  have h7 : ("$2b$10$" : String).length = 7 := rfl
  simp only [bhash, String.length_append, h7]

theorem bhash_ne_self (p : String) : bhash p ≠ p := by
  intro h
  have := congrArg String.length h
  rw [bhash_length] at this
  omega

/-- Partial data for `AdminService.create` / `prisma.admin.create`: the
request body.  `id` is optional because prisma generates a cuid when no id
is supplied (and the service deletes any client-supplied id). -/
structure AdminInput where
  id : Option String := none
  email : String
  name : String
  password : String
  status : Int := 1
  isSystem : Int := 0
deriving DecidableEq, Repr

namespace AdminService

/-- src/dist AdminService.create: look up an existing admin by email and
throw HttpException 409 when found; otherwise hash the password, delete
any client-supplied id, and insert the row with a store-generated id
(`freshId` stands for the cuid the store generates). -/
def create (db : DB) (data : AdminInput) (freshId : String) :
    Except AppError Admin × DB :=
  match db.admins.find? (fun a => a.email == data.email) with
  | some _ =>
      (.error (HttpException 409 ("This email " ++ data.email ++ " already exists")), db)
  | none =>
      let admin : Admin :=
        { id := freshId
          email := data.email
          name := data.name
          password := bhash data.password
          status := data.status
          isSystem := data.isSystem }
      (.ok admin, { db with admins := db.admins ++ [admin] })

/-- Partial data for `AdminService.update`: every field of the body is
optional; absent fields are left unchanged by `prisma.admin.update`. -/
structure UpdateData where
  email : Option String := none
  name : Option String := none
  password : Option String := none
  status : Option Int := none
deriving DecidableEq, Repr

/-- Apply an UpdateData to an existing row (`prisma.admin.update` data). -/
def applyUpdate (a : Admin) (d : UpdateData) : Admin :=
  { a with
    email := d.email.getD a.email
    name := d.name.getD a.name
    password := d.password.getD a.password
    status := d.status.getD a.status }

/-- src/dist AdminService.update: 404 when the id is unknown; when the body
carries an email whose lower-casing differs from the stored one, look the
email up and throw HttpException 409 when any admin already holds it;
otherwise write.  The write itself enforces the storage unique constraint
on email (a prisma known-request error, which carries no `status`). -/
def update (db : DB) (userId : String) (data : UpdateData) :
    Except AppError Admin × DB :=
  match db.admins.find? (fun a => a.id == userId) with
  | none =>
      (.error (HttpException 404 ("User with ID " ++ userId ++ " not found")), db)
  | some findUser =>
      let emailConflict :=
        match data.email with
        | some e =>
            jsToLowerCase e != jsToLowerCase findUser.email
              && db.admins.any (fun a => a.email == e)
        | none => false
      if emailConflict then
        let e := data.email.getD ""
        (.error (HttpException 409 ("Email " ++ e ++ " is already in use by another user")), db)
      else
        let uniqueViolated :=
          match data.email with
          | some e => db.admins.any (fun a => a.id != userId && a.email == e)
          | none => false
        if uniqueViolated then
          (.error (jsError "Unique constraint failed on the fields: (email)"), db)
        else
          let updated := applyUpdate findUser data
          (.ok updated,
           { db with admins := db.admins.map (fun a => if a.id == userId then applyUpdate a data else a) })

/-- src/dist AdminService.delete: `deleteMany` of the rows whose id is in
`userIds` and whose isSystem is 0, then HttpException 409 when the delete
count is zero. -/
def delete (db : DB) (userIds : List String) :
    Except AppError Bool × DB :=
  let deleted := db.admins.filter (fun a => userIds.contains a.id && a.isSystem == 0)
  let db' := { db with admins := db.admins.filter (fun a => !(userIds.contains a.id && a.isSystem == 0)) }
  if deleted.length = 0 then
    (.error (HttpException 409 "User does not exist"), db')
  else
    (.ok true, db')

/-- src/dist AdminService.updateProfile: a bare `prisma.admin.update` of
name and email — no domain-level email lookup at all.  The storage layer
reports an unknown id or a violated unique constraint as prisma errors,
which carry no `status`. -/
def updateProfile (db : DB) (adminId name email : String) :
    Except AppError Admin × DB :=
  match db.admins.find? (fun a => a.id == adminId) with
  | none =>
      (.error (jsError "Record to update not found."), db)
  | some admin =>
      if db.admins.any (fun a => a.id != adminId && a.email == email) then
        (.error (jsError "Unique constraint failed on the fields: (email)"), db)
      else
        let updated := { admin with name := name, email := email }
        (.ok updated,
         { db with admins := db.admins.map (fun a => if a.id == adminId then { a with name := name, email := email } else a) })

/-- src/dist AdminService.updatePassword: find the admin, compare the
current password against the stored hash, compare the new password against
the same stored hash (the only history kept), then hash-and-store.  All
three failures throw plain `Error`s without a `status`. -/
def updatePassword (db : DB) (adminId currentPassword newPassword : String) :
    Except AppError Unit × DB :=
  match db.admins.find? (fun a => a.id == adminId) with
  | none => (.error (jsError "Admin not found"), db)
  | some admin =>
      if !(bcompare currentPassword admin.password) then
        (.error (jsError "Current password is incorrect"), db)
      else if bcompare newPassword admin.password then
        (.error (jsError "New password is already used in the past"), db)
      else
        let hashedPassword := bhash newPassword
        (.ok (),
         { db with admins := db.admins.map (fun a => if a.id == adminId then { a with password := hashedPassword } else a) })

end AdminService

namespace PermissionService

/-- Modelled from the spec: PermissionService.findAll(type) — the
permission half of `listPermissionsAndRoles(subjectType)`, "returns all
Permissions of subjectType".  The service source is not under src/; only
its caller (PermissionController.getPermissions) is. -/
def findAll (db : DB) (type : String) : List Permission :=
  db.permissions.filter (fun p => p.type == type)

/-- Modelled from the spec: PermissionService.findAllRoleHasPermissions —
the RoleHasPermission half of the snapshot.  The controller under src/
calls it with no subject-type argument, so the function is a function of
the store alone and returns every RoleHasPermission row. -/
def findAllRoleHasPermissions (db : DB) : List RoleHasPermission :=
  db.roleHasPermissions

end PermissionService

namespace RoleService

/-- Modelled from the spec: RoleService.findAll(type) — "returns all Roles
of subjectType".  The service source is not under src/. -/
def findAll (db : DB) (type : String) : List Role :=
  db.roles.filter (fun r => r.type == type)

/-- Modelled from the spec: RoleService.delete(ids) "delegates to the Bulk
Action Engine" — delete roles whose id is in `ids` and whose isSystem is
not 1, erroring when the count is zero — "with cascade semantics from §3":
the prisma schema under src/ declares `onDelete: Cascade` on the role
relation of both ModelHasRole and RoleHasPermission, so the join rows of
every deleted role are removed in the same step. -/
def delete (db : DB) (roleIds : List String) :
    Except AppError Bool × DB :=
  let deleted := db.roles.filter (fun r => roleIds.contains r.id && r.isSystem != 1)
  let deletedIds := deleted.map (fun r => r.id)
  let db' :=
    { db with
      roles := db.roles.filter (fun r => !(roleIds.contains r.id && r.isSystem != 1))
      modelHasRoles := db.modelHasRoles.filter (fun m => !(deletedIds.contains m.roleId))
      roleHasPermissions := db.roleHasPermissions.filter (fun j => !(deletedIds.contains j.roleId)) }
  if deleted.length = 0 then
    (.error (HttpException 409 "Role does not exist"), db)
  else
    (.ok true, db')

end RoleService

/-- The data object of a successful `GET /roles/permissions` response:
`{ permissions, roles, roleHasPermissions }`. -/
structure PermissionSnapshot where
  permissions : List Permission
  roles : List Role
  roleHasPermissions : List RoleHasPermission
deriving DecidableEq, Repr

namespace PermissionController

/-- src/src/controllers PermissionController.getPermissions: read
`req.query.type`; `if (!type) throw new HttpException(422, ...)` — the only
validation, and a JavaScript falsiness test, so an absent or empty value
throws and every other string is passed on; then assemble
`permission.findAll(type)`, `permission.findAllRoleHasPermissions()` (no
type argument) and `role.findAll(type)`. -/
def getPermissions (db : DB) (type : Option String) :
    Except AppError PermissionSnapshot :=
  match type with
  | none => .error (HttpException 422 "Type is Required")
  | some t =>
      if t = "" then .error (HttpException 422 "Type is Required")
      else
        .ok
          { permissions := PermissionService.findAll db t
            roles := RoleService.findAll db t
            roleHasPermissions := PermissionService.findAllRoleHasPermissions db }

end PermissionController

/-- The query parameters of `GET /admin/users` that the controller reads,
each absent when the caller did not supply it.  Numeric parameters are
modelled already converted (the controller applies `Number(...)`). -/
structure UsersQuery where
  pageNumber : Option Int := none
  perPage : Option Int := none
  sort : Option String := none
  order : Option String := none
  q : Option String := none
  ignoreGlobal : Option String := none
deriving DecidableEq, Repr

/-- The IFindAllPaginateOptions object handed to
`AdminService.findAllPaginate`. -/
structure FindAllPaginateOptions where
  pageNumber : Int
  perPage : Int
  sort : String
  order : String
  q : Option String := none
  ignoreGlobal : List String := []
deriving DecidableEq, Repr

namespace AdminController

/-- src/src/controllers AdminController.getUsers, the options assembly:
destructuring defaults `pageNumber = 0`, `perPage = 10`,
`sort = "createdAt"`, `order = "ASC"` (single-quoted in the source), then
`pageNumber: Number(pageNumber) + 1`, `order: String(order).toUpperCase()`,
`ignoreGlobal: (req.query.ignoreGlobal as string)?.split(",") || []`. -/
def getUsersOptions (query : UsersQuery) : FindAllPaginateOptions :=
  { pageNumber := query.pageNumber.getD 0 + 1
    perPage := query.perPage.getD 10
    sort := query.sort.getD "createdAt"
    order := jsToUpperCase (query.order.getD "ASC")
    q := query.q
    ignoreGlobal := (query.ignoreGlobal.map (fun s => s.splitOn ",")).getD [] }

end AdminController

/-! ### Concrete fixtures used by counterexamples and witnesses -/

def roleAdminFx : Role :=
  { id := "r-adm", name := "super", type := "admin", status := 1, isSystem := 0 }

def roleUserFx : Role :=
  { id := "r-usr", name := "editor", type := "user", status := 1, isSystem := 0 }

def permAdminFx : Permission :=
  { id := "p-adm", name := "admins.view", type := "admin", parentId := none }

def permUserFx : Permission :=
  { id := "p-usr", name := "posts.view", type := "user", parentId := none }

/-- A store holding a role of each subject type, each bound to one
permission of its own type. -/
def dbMixed : DB :=
  { roles := [roleAdminFx, roleUserFx]
    permissions := [permAdminFx, permUserFx]
    roleHasPermissions :=
      [{ roleId := "r-adm", permissionId := "p-adm" },
       { roleId := "r-usr", permissionId := "p-usr" }] }

/-- C1, counterexample.  On a store holding bound roles of both types, the
snapshot for subject type "admin" contains the join row of the role of
type "user": `findAllRoleHasPermissions` is called with no type argument
and returns every RoleHasPermission row, so a join row of a role of the
other type does appear. -/
theorem C1_counterexample :
    PermissionController.getPermissions dbMixed (some "admin") =
      .ok { permissions := [permAdminFx]
            roles := [roleAdminFx]
            roleHasPermissions :=
              [{ roleId := "r-adm", permissionId := "p-adm" },
               { roleId := "r-usr", permissionId := "p-usr" }] }
    ∧ roleUserFx ∈ dbMixed.roles
    ∧ roleUserFx.id = "r-usr"
    ∧ roleUserFx.type ≠ "admin"
    ∧ (∀ r ∈ dbMixed.roles, r.id = "r-usr" → r.type ≠ "admin") := by
  decide

/-- C1, amended.  For every nonempty subject type `t`, the
permission-listing operation returns exactly the Permissions of type `t`,
the Roles of type `t`, and ALL RoleHasPermission rows — the join rows are
not restricted to the roles of type `t`. -/
theorem C1_getPermissions_snapshot (db : DB) (t : String) (ht : t ≠ "") :
    PermissionController.getPermissions db (some t) =
      .ok { permissions := db.permissions.filter (fun p => p.type == t)
            roles := db.roles.filter (fun r => r.type == t)
            roleHasPermissions := db.roleHasPermissions } := by
  simp [PermissionController.getPermissions, PermissionService.findAll,
        RoleService.findAll, PermissionService.findAllRoleHasPermissions, ht]

/-- C1, witness for the amended theorem at `dbMixed` and type "admin". -/
theorem C1_getPermissions_snapshot_witness :
    PermissionController.getPermissions dbMixed (some "admin") =
      .ok { permissions := dbMixed.permissions.filter (fun p => p.type == "admin")
            roles := dbMixed.roles.filter (fun r => r.type == "admin")
            roleHasPermissions := dbMixed.roleHasPermissions } :=
  C1_getPermissions_snapshot dbMixed "admin" (by decide)

/-- C2, counterexample.  The controller only tests JavaScript falsiness of
`type`: the unrecognized value "banana" is neither "admin" nor "user", yet
the operation succeeds (HTTP 200 with a snapshot) instead of failing with
a 422 validation error. -/
theorem C2_counterexample :
    PermissionController.getPermissions dbMixed (some "banana") =
      .ok { permissions := [], roles := [],
            roleHasPermissions := dbMixed.roleHasPermissions }
    ∧ ("banana" : String) ≠ "admin"
    ∧ ("banana" : String) ≠ "user" := by
  decide

/-- C2, amended.  The operation fails with a 422 validation error exactly
when `type` is missing or empty; every other string — recognized or not —
is accepted and a snapshot is returned. -/
theorem C2_getPermissions_validation (db : DB) (t : String) :
    PermissionController.getPermissions db none = .error (HttpException 422 "Type is Required")
    ∧ PermissionController.getPermissions db (some "") = .error (HttpException 422 "Type is Required")
    ∧ (t ≠ "" → ∃ snap, PermissionController.getPermissions db (some t) = .ok snap) := by
  refine ⟨rfl, rfl, fun ht => ?_⟩
  refine ⟨{ permissions := PermissionService.findAll db t
            roles := RoleService.findAll db t
            roleHasPermissions := PermissionService.findAllRoleHasPermissions db }, ?_⟩
  simp [PermissionController.getPermissions, ht]

/-- C2, witness for the amended theorem: a missing type is rejected and
the unrecognized nonempty type "banana" is accepted, on `dbMixed`. -/
theorem C2_getPermissions_validation_witness :
    PermissionController.getPermissions dbMixed none = .error (HttpException 422 "Type is Required")
    ∧ ∃ snap, PermissionController.getPermissions dbMixed (some "banana") = .ok snap :=
  ⟨(C2_getPermissions_validation dbMixed "banana").1,
   (C2_getPermissions_validation dbMixed "banana").2.2 (by decide)⟩

/-- C8, confirmed.  The `GET /admin/users` boundary adds 1 to the
caller-supplied 0-based pageNumber (defaulting the absent parameter to 0, hence page 1),
defaults perPage to 10, sort to "createdAt" and order to "ASC", and
upper-cases a supplied order, before invoking findAllPaginate. -/
theorem C8_getUsersOptions_defaults (q : UsersQuery) :
    (∀ n, q.pageNumber = some n → (AdminController.getUsersOptions q).pageNumber = n + 1)
    ∧ (q.pageNumber = none → (AdminController.getUsersOptions q).pageNumber = 1)
    ∧ (q.perPage = none → (AdminController.getUsersOptions q).perPage = 10)
    ∧ (q.sort = none → (AdminController.getUsersOptions q).sort = "createdAt")
    ∧ (q.order = none → (AdminController.getUsersOptions q).order = "ASC")
    ∧ (∀ o, q.order = some o → (AdminController.getUsersOptions q).order = jsToUpperCase o) := by
  refine ⟨?_, ?_, ?_, ?_, ?_, ?_⟩ <;>
    · intros
      simp_all [AdminController.getUsersOptions]
      try rfl

/-- C8, witness: the defaults at an empty query, and the normalization at
pageNumber 4 with order "desc". -/
theorem C8_getUsersOptions_defaults_witness :
    (AdminController.getUsersOptions {}).pageNumber = 1
    ∧ (AdminController.getUsersOptions {}).perPage = 10
    ∧ (AdminController.getUsersOptions {}).sort = "createdAt"
    ∧ (AdminController.getUsersOptions {}).order = "ASC"
    ∧ (AdminController.getUsersOptions { pageNumber := some 4, order := some "desc" }).pageNumber = 4 + 1
    ∧ (AdminController.getUsersOptions { pageNumber := some 4, order := some "desc" }).order = jsToUpperCase "desc" :=
  ⟨(C8_getUsersOptions_defaults {}).2.1 rfl,
   (C8_getUsersOptions_defaults {}).2.2.1 rfl,
   (C8_getUsersOptions_defaults {}).2.2.2.1 rfl,
   (C8_getUsersOptions_defaults {}).2.2.2.2.1 rfl,
   (C8_getUsersOptions_defaults { pageNumber := some 4, order := some "desc" }).1 4 rfl,
   (C8_getUsersOptions_defaults { pageNumber := some 4, order := some "desc" }).2.2.2.2.2 "desc" rfl⟩

/-- C9, confirmed.  The error middleware answers with body
`{ message, status }` whose status field equals the HTTP status; an error
without a status (or with falsy status 0) yields 500, an error without a
message (or with a falsy empty message) yields "Something went wrong", and
an error carrying a truthy status and message has both echoed. -/
theorem C9_ErrorMiddleware_envelope (e : AppError) :
    (ErrorMiddleware e).2.status = (ErrorMiddleware e).1
    ∧ (e.status = none → (ErrorMiddleware e).1 = 500)
    ∧ (e.message = none → (ErrorMiddleware e).2.message = "Something went wrong")
    ∧ (∀ s, e.status = some s → s ≠ 0 → (ErrorMiddleware e).1 = s)
    ∧ (∀ m, e.message = some m → m ≠ "" → (ErrorMiddleware e).2.message = m) := by
  refine ⟨rfl, ?_, ?_, ?_, ?_⟩ <;>
    · intros
      simp_all [ErrorMiddleware, jsOrNat, jsOrStr]

/-- C9, witness: the defaults at a bare `Error`-like value and the echo at
`HttpException 409`. -/
theorem C9_ErrorMiddleware_envelope_witness :
    (ErrorMiddleware { status := none, message := none }).1 = 500
    ∧ (ErrorMiddleware { status := none, message := none }).2.message = "Something went wrong"
    ∧ (ErrorMiddleware (HttpException 409 "dup")).1 = 409
    ∧ (ErrorMiddleware (HttpException 409 "dup")).2.message = "dup" :=
  ⟨(C9_ErrorMiddleware_envelope { status := none, message := none }).2.1 rfl,
   (C9_ErrorMiddleware_envelope { status := none, message := none }).2.2.1 rfl,
   (C9_ErrorMiddleware_envelope (HttpException 409 "dup")).2.2.2.1 409 rfl (by decide),
   (C9_ErrorMiddleware_envelope (HttpException 409 "dup")).2.2.2.2 "dup" rfl (by decide)⟩

/-! ### Helper lemmas shared across claims -/

theorem find_email_some {db : DB} {e : String}
    (h : ∃ a ∈ db.admins, a.email = e) :
    ∃ x, db.admins.find? (fun a => a.email == e) = some x := by
  obtain ⟨a, ha, hae⟩ := h
  have hs : (db.admins.find? (fun a => a.email == e)).isSome := by
    rw [List.find?_isSome]
    exact ⟨a, ha, by simp [hae]⟩
  exact Option.isSome_iff_exists.mp hs

/-- AdminService.create answers the duplicate-email lookup with
HttpException 409 and leaves the store untouched. -/
theorem create_dup_helper (db : DB) (data : AdminInput) (freshId : String)
    (hdup : ∃ a ∈ db.admins, a.email = data.email) :
    AdminService.create db data freshId
      = (.error (HttpException 409 ("This email " ++ data.email ++ " already exists")), db) := by
  obtain ⟨x, hx⟩ := find_email_some hdup
  unfold AdminService.create
  rw [hx]

/-! ### Admin fixtures -/

def adminFx : Admin :=
  { id := "a1", email := "root@x.io", name := "Root",
    password := bhash "secret1", status := 1, isSystem := 1 }

def adminFx2 : Admin :=
  { id := "a2", email := "two@x.io", name := "Two",
    password := bhash "secret2", status := 1, isSystem := 0 }

def dbAdmins : DB := { admins := [adminFx, adminFx2] }

def dupInput : AdminInput :=
  { email := "root@x.io", name := "New", password := "pw12345678" }

def newInput : AdminInput :=
  { id := some "attacker-chosen", email := "new@x.io", name := "New",
    password := "pw12345678" }

/-- C7, confirmed.  Creating an Admin whose email equals an existing
email of an existing Admin fails with HttpException 409 (ConflictError) and the store
is returned unchanged: no row is created. -/
theorem C7_create_duplicate_email (db : DB) (data : AdminInput) (freshId : String)
    (hdup : ∃ a ∈ db.admins, a.email = data.email) :
    (AdminService.create db data freshId).1
        = .error (HttpException 409 ("This email " ++ data.email ++ " already exists"))
    ∧ (AdminService.create db data freshId).2 = db := by
  rw [create_dup_helper db data freshId hdup]
  exact ⟨rfl, rfl⟩

/-- C7, witness: creating a second admin with the email of adminFx on
`dbAdmins`. -/
theorem C7_create_duplicate_email_witness :
    (AdminService.create dbAdmins dupInput "cuid-1").1
        = .error (HttpException 409 ("This email " ++ dupInput.email ++ " already exists"))
    ∧ (AdminService.create dbAdmins dupInput "cuid-1").2 = dbAdmins :=
  C7_create_duplicate_email dbAdmins dupInput "cuid-1" ⟨adminFx, by decide, by decide⟩

/-- C10, confirmed.  On every successful create, the password of the
persisted row is the bcrypt hash of the supplied password (never the plaintext
itself), its id is the store-generated one regardless of any
client-supplied id (which the service deletes), and the row is the one
appended to the store. -/
theorem C10_create_hashes_password_and_ignores_id (db : DB) (data : AdminInput)
    (freshId : String) (a : Admin) (db' : DB)
    (h : AdminService.create db data freshId = (.ok a, db')) :
    a.password = bhash data.password
    ∧ a.password ≠ data.password
    ∧ a.id = freshId
    ∧ (∀ oid, AdminService.create db { data with id := oid } freshId
          = AdminService.create db data freshId)
    ∧ db'.admins = db.admins ++ [a] := by
  unfold AdminService.create at h
  cases hfind : db.admins.find? (fun x => x.email == data.email) with
  | some x =>
      rw [hfind] at h
      simp at h
  | none =>
      rw [hfind] at h
      rw [Prod.mk.injEq] at h
      obtain ⟨h1, h2⟩ := h
      rw [Except.ok.injEq] at h1
      subst h1
      subst h2
      refine ⟨rfl, ?_, rfl, ?_, rfl⟩
      · exact bhash_ne_self data.password
      · intro oid
        rfl

/-- C3, confirmed.  Bulk delete of Admins removes exactly the requested
rows whose isSystem flag is not 1 (the store keeps every other row, so an
isSystem = 1 Admin is never deleted), and when nothing matches — all ids
protected or nonexistent — the service throws HttpException 409 instead of
silently succeeding.  The hypothesis pins isSystem to its documented 0/1
domain, over which the filter `isSystem: 0` of the source coincides with
"isSystem != 1" of the spec. -/
theorem C3_bulk_delete_protects_system (db : DB) (userIds : List String)
    (hSys : ∀ a ∈ db.admins, a.isSystem = 0 ∨ a.isSystem = 1) :
    (AdminService.delete db userIds).2.admins
        = db.admins.filter (fun a => !(userIds.contains a.id && a.isSystem != 1))
    ∧ (∀ a ∈ db.admins, a.isSystem = 1 → a ∈ (AdminService.delete db userIds).2.admins)
    ∧ ((db.admins.filter (fun a => userIds.contains a.id && a.isSystem != 1)).length = 0
        → (AdminService.delete db userIds).1
            = .error (HttpException 409 "User does not exist"))
    ∧ (∀ ok, (AdminService.delete db userIds).1 = .ok ok
        → (db.admins.filter (fun a => userIds.contains a.id && a.isSystem != 1)).length ≠ 0) := by
  have hpt : ∀ a ∈ db.admins,
      (userIds.contains a.id && a.isSystem == 0) = (userIds.contains a.id && a.isSystem != 1) := by
    intro a ha
    rcases hSys a ha with h | h <;> rw [h] <;> rfl
  have hptn : ∀ a ∈ db.admins,
      (!(userIds.contains a.id && a.isSystem == 0))
        = (!(userIds.contains a.id && a.isSystem != 1)) := by
    intro a ha
    rw [hpt a ha]
  have hfe : db.admins.filter (fun a => userIds.contains a.id && a.isSystem == 0)
      = db.admins.filter (fun a => userIds.contains a.id && a.isSystem != 1) :=
    List.filter_congr hpt
  have hfen : db.admins.filter (fun a => !(userIds.contains a.id && a.isSystem == 0))
      = db.admins.filter (fun a => !(userIds.contains a.id && a.isSystem != 1)) :=
    List.filter_congr hptn
  have hsnd : (AdminService.delete db userIds).2
      = { db with admins := db.admins.filter (fun a => !(userIds.contains a.id && a.isSystem == 0)) } := by
    simp only [AdminService.delete]
    split <;> rfl
  refine ⟨?_, ?_, ?_, ?_⟩
  · rw [hsnd]
    exact hfen
  · intro a ha h1
    rw [hsnd]
    simp only [List.mem_filter]
    exact ⟨ha, by rw [h1]; simp⟩
  · intro hcount
    rw [← hfe] at hcount
    unfold AdminService.delete
    simp only [hcount, if_pos]
  · intro ok hok hcount
    rw [← hfe] at hcount
    unfold AdminService.delete at hok
    simp only [hcount, if_pos] at hok
    exact Except.noConfusion hok

/-- C3, witness: on `dbAdmins`, deleting the id set containing only the
isSystem = 1 admin affects nothing, throws HttpException 409, and the
system admin survives. -/
theorem C3_bulk_delete_protects_system_witness :
    (AdminService.delete dbAdmins ["a1"]).1 = .error (HttpException 409 "User does not exist")
    ∧ adminFx ∈ (AdminService.delete dbAdmins ["a1"]).2.admins := by
  have h := C3_bulk_delete_protects_system dbAdmins ["a1"] (by decide)
  exact ⟨h.2.2.1 (by decide), h.2.1 adminFx (by decide) (by decide)⟩

/-! ### Password-update fixtures -/

def adminPw : Admin :=
  { id := "a9", email := "pw@x.io", name := "P",
    password := bhash "p0", status := 1, isSystem := 0 }

def dbPw : DB := { admins := [adminPw] }

/-- The store after the password of a9 has been changed from "p0" to
"p1": now "p1" is the current password and "p0" the immediately-previous
one. -/
def dbPw1 : DB := (AdminService.updatePassword dbPw "a9" "p0" "p1").2

/-- C4, counterexample.  Starting from a stored hash of "p0", changing the
password to "p1" succeeds; from that state, changing it back to the
immediately-previous password "p0" also succeeds (the claim says it must
fail), and reusing the current password "p1" fails with a plain Error that
carries no status at all — not a ConflictError 409. -/
theorem C4_counterexample :
    (AdminService.updatePassword dbPw "a9" "p0" "p1").1 = .ok ()
    ∧ (AdminService.updatePassword dbPw1 "a9" "p1" "p0").1 = .ok ()
    ∧ (AdminService.updatePassword dbPw1 "a9" "p1" "p0").2.admins
        = [{ adminPw with password := bhash "p0" }]
    ∧ (AdminService.updatePassword dbPw1 "a9" "p1" "p1").1
        = .error (jsError "New password is already used in the past")
    ∧ (jsError "New password is already used in the past").status ≠ some 409 := by
  decide

/-- C4, amended.  With a correct current password, only reuse of the
*current* password is rejected — by a plain Error without a status
(surfaced as 500 by the middleware), not a ConflictError — leaving the
stored hash unchanged; any password different from the current one,
including the immediately-previous one (no history is kept), succeeds and
the stored hash becomes the hash of the new password. -/
theorem C4_updatePassword_spec (db : DB) (adminId cur new : String) (admin : Admin)
    (hfind : db.admins.find? (fun a => a.id == adminId) = some admin)
    (hcur : admin.password = bhash cur) :
    (new = cur →
      AdminService.updatePassword db adminId cur new
        = (.error (jsError "New password is already used in the past"), db))
    ∧ (new ≠ cur →
      (AdminService.updatePassword db adminId cur new).1 = .ok ()
      ∧ (AdminService.updatePassword db adminId cur new).2.admins
          = db.admins.map (fun a => if a.id == adminId then { a with password := bhash new } else a)) := by
  have hc1 : bcompare cur admin.password = true := by
    rw [hcur, bcompare_bhash]
    simp
  constructor
  · intro he
    subst he
    unfold AdminService.updatePassword
    rw [hfind]
    simp [hc1]
  · intro hne
    have hc2 : bcompare new admin.password = false := by
      rw [hcur, bcompare_bhash]
      simp [hne]
    unfold AdminService.updatePassword
    rw [hfind]
    simp [hc1, hc2]

/-- C4, witness for the amended theorem on `dbPw`: reusing the current
password "p0" fails without a status, and the fresh password "p2" is
accepted and stored hashed. -/
theorem C4_updatePassword_spec_witness :
    AdminService.updatePassword dbPw "a9" "p0" "p0"
        = (.error (jsError "New password is already used in the past"), dbPw)
    ∧ (AdminService.updatePassword dbPw "a9" "p0" "p2").1 = .ok ()
    ∧ (AdminService.updatePassword dbPw "a9" "p0" "p2").2.admins
        = dbPw.admins.map (fun a => if a.id == "a9" then { a with password := bhash "p2" } else a) := by
  have h0 := C4_updatePassword_spec dbPw "a9" "p0" "p0" adminPw (by decide) rfl
  have h2 := C4_updatePassword_spec dbPw "a9" "p0" "p2" adminPw (by decide) rfl
  exact ⟨h0.1 rfl, (h2.2 (by decide)).1, (h2.2 (by decide)).2⟩

/-- C5, confirmed.  Deleting roles removes, in the same step, every
RoleHasPermission and every ModelHasRole row whose roleId is an id of a
deleted role (onDelete Cascade in the schema), so no join row referencing a
deleted role survives, and the deleted role itself is gone. -/
theorem C5_role_delete_cascades (db : DB) (roleIds : List String) (r : Role)
    (hr : r ∈ db.roles) (hid : roleIds.contains r.id = true) (hsys : r.isSystem ≠ 1) :
    (∀ j ∈ (RoleService.delete db roleIds).2.roleHasPermissions, j.roleId ≠ r.id)
    ∧ (∀ m ∈ (RoleService.delete db roleIds).2.modelHasRoles, m.roleId ≠ r.id)
    ∧ r ∉ (RoleService.delete db roleIds).2.roles := by
  have hpred : (roleIds.contains r.id && r.isSystem != 1) = true := by
    simp [List.elem_iff.mp hid, hsys]
  have hrdel : r ∈ db.roles.filter (fun x => roleIds.contains x.id && x.isSystem != 1) :=
    List.mem_filter.mpr ⟨hr, hpred⟩
  have hlen : ¬ (db.roles.filter (fun x => roleIds.contains x.id && x.isSystem != 1)).length = 0 := by
    intro h0
    rw [List.length_eq_zero] at h0
    rw [h0] at hrdel
    exact List.not_mem_nil r hrdel
  have hdel : RoleService.delete db roleIds
      = (.ok true,
         { db with
           roles := db.roles.filter (fun x => !(roleIds.contains x.id && x.isSystem != 1))
           modelHasRoles := db.modelHasRoles.filter
             (fun m => !(((db.roles.filter (fun x => roleIds.contains x.id && x.isSystem != 1)).map
                 (fun x => x.id)).contains m.roleId))
           roleHasPermissions := db.roleHasPermissions.filter
             (fun j => !(((db.roles.filter (fun x => roleIds.contains x.id && x.isSystem != 1)).map
                 (fun x => x.id)).contains j.roleId)) }) := by
    simp only [RoleService.delete]
    rw [if_neg hlen]
  have hidmem : r.id ∈ (db.roles.filter (fun x => roleIds.contains x.id && x.isSystem != 1)).map
      (fun x => x.id) :=
    List.mem_map.mpr ⟨r, hrdel, rfl⟩
  have hidcontains : ((db.roles.filter (fun x => roleIds.contains x.id && x.isSystem != 1)).map
      (fun x => x.id)).contains r.id = true :=
    List.elem_iff.mpr hidmem
  refine ⟨?_, ?_, ?_⟩
  · intro j hj heq
    rw [hdel] at hj
    rw [List.mem_filter] at hj
    have h2 := hj.2
    rw [heq, Bool.not_eq_true', hidcontains] at h2
    exact Bool.noConfusion h2
  · intro m hm heq
    rw [hdel] at hm
    rw [List.mem_filter] at hm
    have h2 := hm.2
    rw [heq, Bool.not_eq_true', hidcontains] at h2
    exact Bool.noConfusion h2
  · intro hrmem
    rw [hdel] at hrmem
    rw [List.mem_filter] at hrmem
    have h2 := hrmem.2
    rw [Bool.not_eq_true', hpred] at h2
    exact Bool.noConfusion h2

/-- C5, witness: deleting role "r-usr" from `dbMixed` leaves no join row
referencing it and removes the role itself. -/
theorem C5_role_delete_cascades_witness :
    (∀ j ∈ (RoleService.delete dbMixed ["r-usr"]).2.roleHasPermissions, j.roleId ≠ roleUserFx.id)
    ∧ (∀ m ∈ (RoleService.delete dbMixed ["r-usr"]).2.modelHasRoles, m.roleId ≠ roleUserFx.id)
    ∧ roleUserFx ∉ (RoleService.delete dbMixed ["r-usr"]).2.roles :=
  C5_role_delete_cascades dbMixed ["r-usr"] roleUserFx (by decide) (by decide) (by decide)

/-- C6, counterexample.  `updateProfile` performs no email lookup before
writing: giving admin "a2" the email already held by admin "a1" reaches
the storage layer, which reports a unique-constraint error carrying no
status — the middleware surfaces it as a 500, not a domain-level 409
conflict.  The path relies solely on storage uniqueness. -/
theorem C6_counterexample :
    (AdminService.updateProfile dbAdmins "a2" "Two" "root@x.io").1
        = .error (jsError "Unique constraint failed on the fields: (email)")
    ∧ (jsError "Unique constraint failed on the fields: (email)").status = none
    ∧ (ErrorMiddleware (jsError "Unique constraint failed on the fields: (email)")).1 = 500 := by
  decide

/-- C6, amended.  Of the three service-layer write paths that set an
email of an Admin, `create` and `update` do a pre-write lookup and raise
HttpException 409 (a domain-level conflict) before writing, but
`updateProfile` performs no lookup at all: a duplicate email on that path
is caught only by the storage unique constraint, whose error carries no
status. -/
theorem C6_email_conflict_paths (db : DB) (data : AdminInput) (freshId : String)
    (userId : String) (d : AdminService.UpdateData) (findUser : Admin) (e : String)
    (adminId nm em : String) :
    ((∃ a ∈ db.admins, a.email = data.email) →
      (AdminService.create db data freshId).1
        = .error (HttpException 409 ("This email " ++ data.email ++ " already exists")))
    ∧ (db.admins.find? (fun a => a.id == userId) = some findUser →
       d.email = some e →
       jsToLowerCase e ≠ jsToLowerCase findUser.email →
       (∃ a ∈ db.admins, a.email = e) →
       (AdminService.update db userId d).1
         = .error (HttpException 409 ("Email " ++ e ++ " is already in use by another user")))
    ∧ ((db.admins.find? (fun a => a.id == adminId)).isSome = true →
       (∃ a ∈ db.admins, a.id ≠ adminId ∧ a.email = em) →
       (AdminService.updateProfile db adminId nm em).1
         = .error (jsError "Unique constraint failed on the fields: (email)")
       ∧ (jsError "Unique constraint failed on the fields: (email)").status = none) := by
  refine ⟨?_, ?_, ?_⟩
  · intro hdup
    rw [create_dup_helper db data freshId hdup]
  · intro hfind he hne hex
    have hany : db.admins.any (fun a => a.email == e) = true := by
      rw [List.any_eq_true]
      obtain ⟨a, ha, hae⟩ := hex
      exact ⟨a, ha, by simp [hae]⟩
    unfold AdminService.update
    rw [hfind, he]
    simp [hne, hany]
  · intro hfindSome hex
    obtain ⟨admin, hfind⟩ := Option.isSome_iff_exists.mp hfindSome
    have hany : db.admins.any (fun a => a.id != adminId && a.email == em) = true := by
      rw [List.any_eq_true]
      obtain ⟨a, ha, hane, hae⟩ := hex
      exact ⟨a, ha, by simp [hae, hane]⟩
    constructor
    · unfold AdminService.updateProfile
      rw [hfind]
      simp [hany]
    · rfl

/-- C6, witness on `dbAdmins`: the duplicate email "root@x.io" is rejected
with 409 by create and update, while updateProfile lets it reach the
storage constraint, whose error has no status. -/
theorem C6_email_conflict_paths_witness :
    (AdminService.create dbAdmins dupInput "cuid-7").1
        = .error (HttpException 409 ("This email " ++ dupInput.email ++ " already exists"))
    ∧ (AdminService.update dbAdmins "a2" { email := some "root@x.io" }).1
        = .error (HttpException 409 ("Email " ++ "root@x.io" ++ " is already in use by another user"))
    ∧ (AdminService.updateProfile dbAdmins "a2" "Two" "root@x.io").1
        = .error (jsError "Unique constraint failed on the fields: (email)") := by
  have h := C6_email_conflict_paths dbAdmins dupInput "cuid-7" "a2"
    { email := some "root@x.io" } adminFx2 "root@x.io" "a2" "Two" "root@x.io"
  exact ⟨h.1 ⟨adminFx, by decide, by decide⟩,
         h.2.1 (by decide) rfl (by decide) ⟨adminFx, by decide, by decide⟩,
         (h.2.2 (by decide) ⟨adminFx, by decide, by decide⟩).1⟩

/-- The row the store produces for `newInput` under generated id
"cuid-123". -/
def createdFx : Admin :=
  { id := "cuid-123", email := "new@x.io", name := "New",
    password := bhash "pw12345678", status := 1, isSystem := 0 }

/-- C10, witness: creating `newInput` — which carries a client-supplied id
— on `dbAdmins` stores the bcrypt hash, never the plaintext, under the
store-generated id. -/
theorem C10_create_hashes_password_and_ignores_id_witness :
    ∃ a db', AdminService.create dbAdmins newInput "cuid-123" = (.ok a, db')
      ∧ a.password = bhash newInput.password
      ∧ a.password ≠ newInput.password
      ∧ a.id = "cuid-123"
      ∧ db'.admins = dbAdmins.admins ++ [a] := by
  have hc : AdminService.create dbAdmins newInput "cuid-123"
      = (.ok createdFx, { dbAdmins with admins := dbAdmins.admins ++ [createdFx] }) := by
    decide
  have h := C10_create_hashes_password_and_ignores_id dbAdmins newInput "cuid-123" createdFx
    { dbAdmins with admins := dbAdmins.admins ++ [createdFx] } hc
  exact ⟨createdFx, { dbAdmins with admins := dbAdmins.admins ++ [createdFx] },
         hc, h.1, h.2.1, h.2.2.1, h.2.2.2.2⟩
